import Mathlib

/-!
Shallow embedding of `src/mod.ts` (a Deno WebSocket connection bootstrap):
the transport dialer, the stream bridge (outbound sink and inbound read
loop), the handshake sequencing of `createConnection`, and `createMask`.

Modelling conventions:
* Bytes are `Nat` values; the runtime keeps them `< 256`.
* JavaScript exceptions are the explicit error type `JSError`; fallible
  steps return values paired with `Option JSError` or `Except JSError`.
* `Deno.Conn` is modelled by its closed-flag: per the Deno runtime,
  `conn.close()` on an already-closed resource raises
  `Deno.errors.BadResource`; closing an open one succeeds.
* `crypto.getRandomValues` is modelled by an explicit entropy stream
  `Nat → Nat` (byte `i` of the stream is `entropy i % 256`); every
  function of the stream is a possible outcome of the CSPRNG.
-/

namespace CustomSocket

/-- Errors observable from this layer: the `throw new Error('WS: Unknown
protocol ...')` at line 38 of `mod.ts`, the Deno runtime's `BadResource`
raised by closing an already-closed resource, and an error thrown by the
handshake collaborator (carried verbatim). -/
inductive JSError where
  | unsupportedProtocol (protocol : String)
  | badResource
  | handshakeError (msg : String)
  deriving DecidableEq, Repr

/-- Deno `conn.close()` on a socket whose closed-flag is `closed`:
returns the new closed-flag and the error raised, if any. Closing an
open socket closes it; closing an already-closed one raises
`BadResource` (Deno runtime semantics for closed resources). -/
def closeConn (closed : Bool) : Bool × Option JSError :=
  if closed then (true, some JSError.badResource) else (true, none)

/-- One WHATWG-parsed URL as destructured at line 30 of `mod.ts`:
`protocol` keeps its trailing colon; `port = none` models the empty
`port` string (no explicit port), `some p` an explicit port, so that
`parseInt(port || '80')` becomes `port.getD 80`. -/
structure ParsedURL where
  protocol : String
  hostname : String
  port : Option Nat
  deriving DecidableEq, Repr

/-- The two transports the dialer can open: `Deno.connect` (plain TCP)
or `Deno.connectTls` (TLS). -/
inductive Transport where
  | plain
  | tls
  deriving DecidableEq, Repr

/-- The scheme dispatch and port resolution of `createConnection`
(lines 33-39 of `mod.ts`): `http:`/`ws:` dial plain TCP on
`parseInt(port || '80')`; `https:`/`wss:` dial TLS on
`parseInt(port || '443')`; any other protocol throws before any dial. -/
def dialTarget (u : ParsedURL) : Except JSError (Transport × String × Nat) :=
  if u.protocol = "http:" ∨ u.protocol = "ws:" then
    Except.ok (Transport.plain, u.hostname, u.port.getD 80)
  else if u.protocol = "https:" ∨ u.protocol = "wss:" then
    Except.ok (Transport.tls, u.hostname, u.port.getD 443)
  else
    Except.error (JSError.unsupportedProtocol u.protocol)

/-- Semantics of `Headers.set name value` on the WHATWG Headers object
built at lines 41-44: header names are normalized to lower case, and
setting an existing name overwrites its value (last write wins). -/
def headersSet (hs : List (String × String)) (name value : String) :
    List (String × String) :=
  let n := name.toLower
  if hs.any (fun p => p.1 = n) then
    hs.map (fun p => if p.1 = n then (n, value) else p)
  else
    hs ++ [(n, value)]

/-- The copy loop at lines 41-44 of `mod.ts`: a fresh `Headers` object,
then `headersObject.set(header, headers[header])` for each entry of the
caller's record in its enumeration order. -/
def buildHeadersObject (headers : List (String × String)) :
    List (String × String) :=
  headers.foldl (fun acc p => headersSet acc p.1 p.2) []

/-- The `close()` callback of the `WritableStream` (lines 50-52 of
`mod.ts`): it calls `conn.close()` unconditionally, with no guard on the
socket's state. Result: new closed-flag and the error raised, if any. -/
def sinkClose (socketClosed : Bool) : Bool × Option JSError :=
  closeConn socketClosed

/-- The `abort(err)` callback of the `WritableStream` (lines 53-56 of
`mod.ts`): `console.error('Stream aborted:', err)` then an unconditional
`conn.close()`. Result: new closed-flag, the error raised (if any), and
the logged line. -/
def sinkAbort (socketClosed : Bool) (reason : String) :
    Bool × Option JSError × String :=
  let r := closeConn socketClosed
  (r.1, r.2, "Stream aborted: " ++ reason)

/-- What the socket delivers to successive `conn.read` calls of the
inbound loop: each read either succeeds with the bytes placed into the
buffer, reports end-of-stream (`null`), or throws. Scripts are finite
and end in `eof` or `fail`, matching a loop that terminates. -/
inductive SocketScript where
  | eof : SocketScript
  | fail (msg : String) : SocketScript
  | read (bytes : List Nat) (rest : SocketScript) : SocketScript
  deriving DecidableEq, Repr

/-- Contents of the fresh `new Uint8Array(1024)` after `conn.read`
placed `bytes` into it: the delivered bytes (the runtime writes at most
the buffer's 1024 slots) followed by the untouched zero fill. -/
def bufferAfterRead (bytes : List Nat) : List Nat :=
  bytes.take 1024 ++ List.replicate (1024 - bytes.length) 0

/-- The chunk the loop enqueues for one successful read:
`buffer.subarray(0, bytesRead)` (line 69 of `mod.ts`). -/
def enqueuedChunk (bytes : List Nat) : List Nat :=
  (bufferAfterRead bytes).take bytes.length

/-- Observable outcome of one run of the inbound read loop. -/
structure ReadLoopResult where
  emitted : List (List Nat)
  logged : Option String
  sourceClosed : Bool
  socketClosedAfter : Bool
  raised : Bool
  deriving DecidableEq, Repr

/-- The read loop started by the `ReadableStream`'s `start` callback
(lines 60-78 of `mod.ts`): loop { allocate a 1024-byte buffer; read;
on `null` break; otherwise enqueue `buffer.subarray(0, bytesRead)` };
a thrown read error is caught and logged (`console.error`); the
`finally` block runs `controller.close()` then `conn.close()` on every
exit path, and nothing is re-thrown to consumers. -/
def runReadLoop : SocketScript → ReadLoopResult
  | SocketScript.eof =>
      { emitted := [], logged := none, sourceClosed := true,
        socketClosedAfter := true, raised := false }
  | SocketScript.fail m =>
      { emitted := [], logged := some ("Error reading from connection: " ++ m),
        sourceClosed := true, socketClosedAfter := true, raised := false }
  | SocketScript.read bytes rest =>
      let r := runReadLoop rest
      { r with emitted := enqueuedChunk bytes :: r.emitted }

/-- A script consisting of the given successful reads followed by
end-of-stream. -/
def mkScript (reads : List (List Nat)) : SocketScript :=
  reads.foldr SocketScript.read SocketScript.eof

/-- The error, if any, that terminates a script. -/
def terminalError : SocketScript → Option String
  | SocketScript.eof => none
  | SocketScript.fail m => some ("Error reading from connection: " ++ m)
  | SocketScript.read _ rest => terminalError rest

/-- Model of `createMask` (lines 109-111 of `mod.ts`):
`crypto.getRandomValues(new Uint8Array(4))`, reading the next four
bytes of the entropy stream. -/
def createMask (entropy : Nat → Nat) : List Nat :=
  (List.range 4).map (fun i => entropy i % 256)

/-- The `k`-th invocation of `createMask` against one entropy stream:
each call consumes the next four fresh bytes. -/
def createMaskCall (entropy : Nat → Nat) (k : Nat) : List Nat :=
  createMask (fun i => entropy (4 * k + i))

/-- Externally visible actions of one `createConnection` run, in
program order. -/
inductive Event where
  | dial (t : Transport) (hostname : String) (port : Nat)
  | handshakeCall (headers : List (String × String))
  | closeCall
  | maskGen
  deriving DecidableEq, Repr

/-- The caller's mutable `headers` record, observed at the suspension
points of `createConnection`. The record is passed by reference, so the
copy loop at lines 41-44 — which executes only after the
`await Deno.connect` / `await Deno.connectTls` at lines 34-36 has
resolved — reads `afterDial`, not `atCall`; during the
`await handshake(...)` at line 82 the record's contents are
`duringHandshake`, which the source never reads. -/
structure HeaderTimeline where
  atCall : List (String × String)
  afterDial : List (String × String)
  duringHandshake : List (String × String)
  deriving DecidableEq, Repr

/-- The value assembled at lines 88-93 of `mod.ts` on handshake
success: `conn` is modelled by its closed-flag, `mask` is the fresh
`createMask()` result. -/
structure Connection where
  connClosed : Bool
  mask : List Nat
  deriving DecidableEq, Repr

/-- One complete `createConnection` run: its event trace, its result
(returned `Connection` or thrown error), whether a socket was ever
opened, and the socket's final closed-flag (meaningful only when
`socketOpened`). -/
structure BootstrapResult where
  trace : List Event
  outcome : Except JSError Connection
  socketOpened : Bool
  socketClosed : Bool
  deriving Repr

/-- Model of `createConnection` (lines 28-93 of `mod.ts`), sequenced as
in the source: parse and dispatch on the scheme (throwing before any dial on
an unknown one); dial; copy the caller's headers into a fresh
`Headers` object; `await handshake(parsedURL, headersObject, ...)` in a
`try` — on a throw, `conn.close()` then re-throw; on success, return
`{ conn, readableStream, writableStream, mask: createMask() }`.
`handshakeResult` is the collaborator's outcome (it is a collaborator
outside this layer); `entropy` feeds `createMask`. -/
def createConnection (u : ParsedURL) (t : HeaderTimeline)
    (handshakeResult : Except String Unit) (entropy : Nat → Nat) :
    BootstrapResult :=
  match dialTarget u with
  | Except.error e =>
      { trace := [], outcome := Except.error e,
        socketOpened := false, socketClosed := false }
  | Except.ok (tr, host, port) =>
      let headersObject := buildHeadersObject t.afterDial
      match handshakeResult with
      | Except.ok _ =>
          { trace := [Event.dial tr host port,
                      Event.handshakeCall headersObject, Event.maskGen],
            outcome := Except.ok
              { connClosed := false, mask := createMask entropy },
            socketOpened := true, socketClosed := false }
      | Except.error m =>
          let closed := closeConn false
          { trace := [Event.dial tr host port,
                      Event.handshakeCall headersObject, Event.closeCall],
            outcome := Except.error (JSError.handshakeError m),
            socketOpened := true, socketClosed := closed.1 }

/-- The headers argument of the `handshake(...)` call of a run, if the
run reached the handshake. -/
def handshakeHeadersOf (r : BootstrapResult) :
    Option (List (String × String)) :=
  r.trace.findSome? fun e =>
    match e with
    | Event.handshakeCall hs => some hs
    | _ => none

/-- The field names of the object literal returned at lines 88-93 of
`mod.ts`. -/
def returnedConnectionFields : List String :=
  ["conn", "readableStream", "writableStream", "mask"]

/-- The field names declared by the exported `Connection` interface at
lines 99-104 of `mod.ts`. -/
def connectionInterfaceFields : List String :=
  ["conn", "bufReader", "bufWriter", "mask"]

/-- Structural conformance of an object's field set to an interface's
field set: every declared field is present. -/
def conformsTo (valueFields ifaceFields : List String) : Bool :=
  ifaceFields.all (fun f => valueFields.contains f)

/-- A read of at most the buffer's 1024 bytes is enqueued verbatim:
the subarray of the filled buffer is exactly the bytes read. -/
lemma enqueuedChunk_eq_of_le (bytes : List Nat) (h : bytes.length ≤ 1024) :
    enqueuedChunk bytes = bytes := by
  unfold enqueuedChunk bufferAfterRead
  rw [List.take_of_length_le h]
  exact List.take_left bytes _

lemma mkScript_cons (c : List Nat) (cs : List (List Nat)) :
    mkScript (c :: cs) = SocketScript.read c (mkScript cs) := rfl

lemma runReadLoop_mkScript_emitted (reads : List (List Nat))
    (h : ∀ c ∈ reads, c.length ≤ 1024) :
    (runReadLoop (mkScript reads)).emitted = reads := by
  induction reads with
  | nil => rfl
  | cons c cs ih =>
      rw [mkScript_cons]
      show enqueuedChunk c :: (runReadLoop (mkScript cs)).emitted = c :: cs
      rw [enqueuedChunk_eq_of_le c (h c (List.mem_cons_self c cs)),
        ih (fun d hd => h d (List.mem_cons_of_mem c hd))]

/-- C5: for every sequence of successful socket reads (each of at most
the 1024-byte buffer size) followed by end-of-stream, the inbound
source emits one chunk per read, holding exactly the bytes of that read
(the filled slice of the 1024-byte buffer), in read order — no
reordering, merging or splitting — and the total number of emitted
bytes equals the total number of bytes read. -/
theorem C5_inbound_chunks_match_reads_in_order (reads : List (List Nat))
    (h : ∀ c ∈ reads, c.length ≤ 1024) :
    (runReadLoop (mkScript reads)).emitted = reads
      ∧ ((runReadLoop (mkScript reads)).emitted.map List.length).sum
        = (reads.map List.length).sum := by
  have e := runReadLoop_mkScript_emitted reads h
  exact ⟨e, by rw [e]⟩

/-- Witness for C5 at the three-read script `A = [1,2]`, `B = [3]`,
`C = [4,5,6]`. -/
theorem C5_inbound_chunks_match_reads_in_order_witness :
    (∀ c ∈ [[1, 2], [3], [4, 5, 6]], List.length c ≤ 1024)
      ∧ ((runReadLoop (mkScript [[1, 2], [3], [4, 5, 6]])).emitted
          = [[1, 2], [3], [4, 5, 6]]
        ∧ ((runReadLoop (mkScript [[1, 2], [3], [4, 5, 6]])).emitted.map
            List.length).sum = ([[1, 2], [3], [4, 5, 6]].map List.length).sum) :=
  ⟨by decide, C5_inbound_chunks_match_reads_in_order _ (by decide)⟩

/-- C6: whenever the inbound read loop terminates — by a read reporting
end-of-stream or by a read throwing — nothing is raised to consumers
(the error, if any, is logged via `console.error`), the source is
closed (consumers observe completion), and the socket is closed. -/
theorem C6_loop_termination_logs_closes_source_then_socket
    (s : SocketScript) :
    (runReadLoop s).raised = false
      ∧ (runReadLoop s).sourceClosed = true
      ∧ (runReadLoop s).socketClosedAfter = true
      ∧ (runReadLoop s).logged = terminalError s := by
  induction s with
  | eof => exact ⟨rfl, rfl, rfl, rfl⟩
  | fail m => exact ⟨rfl, rfl, rfl, rfl⟩
  | read bytes rest ih => exact ih

/-- C4 counterexample: invoking the sink's `close` (or `abort`) when
the socket is already closed is not a no-op — the unguarded
`conn.close()` raises `BadResource`, so the second of two closes
errors. -/
theorem C4_counterexample_second_close_raises :
    (sinkClose true).2 = some JSError.badResource
      ∧ (sinkAbort true "handshake cleanup").2.1 = some JSError.badResource := by
  decide

/-- C4 amended: the sink's `close` and `abort` call `conn.close()`
unconditionally; when the socket is still open they close it and raise
nothing, but when it is already closed they raise `BadResource` — close
and abort are not idempotent, and closing the shared socket twice
errors on the second close. -/
theorem C4_amended_close_abort_unguarded (reason : String) :
    sinkClose false = (true, none)
      ∧ sinkClose true = (true, some JSError.badResource)
      ∧ (sinkAbort false reason).1 = true
      ∧ (sinkAbort false reason).2.1 = none
      ∧ (sinkAbort true reason).2.1 = some JSError.badResource := by
  refine ⟨rfl, rfl, rfl, rfl, rfl⟩

/-- C7 counterexample: the all-zero entropy stream is a possible output
of `crypto.getRandomValues`; under it the first and second invocations
of the mask generator (both among 10,000 invocations) are identical,
and the value is all-zero. -/
theorem C7_counterexample_identical_and_all_zero_masks :
    createMaskCall (fun _ => 0) 0 = [0, 0, 0, 0]
      ∧ createMaskCall (fun _ => 0) 0 = createMaskCall (fun _ => 0) 1 := by
  decide

/-- C7 amended: every call to the masking-key generator returns a
4-byte value (four bytes, each below 256) read from the random source;
distinctness across invocations and a non-zero value hold only with
high probability, not unconditionally. -/
theorem C7_amended_mask_is_four_bytes (entropy : Nat → Nat) (k : Nat) :
    (createMaskCall entropy k).length = 4
      ∧ ∀ b ∈ createMaskCall entropy k, b < 256 := by
  constructor
  · rfl
  · intro b hb
    simp only [createMaskCall, createMask, List.mem_map] at hb
    obtain ⟨i, _, hi⟩ := hb
    omega

/-- C10: the object returned by `createConnection` has exactly the
fields `conn`, `readableStream`, `writableStream`, `mask`; it lacks the
`bufReader` and `bufWriter` fields that the exported `Connection`
interface declares, and the interface declares neither stream field, so
the returned value does not structurally conform to the declared
`Connection` type. -/
theorem C10_returned_fields_do_not_conform_to_interface :
    returnedConnectionFields
        = ["conn", "readableStream", "writableStream", "mask"]
      ∧ "bufReader" ∉ returnedConnectionFields
      ∧ "bufWriter" ∉ returnedConnectionFields
      ∧ connectionInterfaceFields = ["conn", "bufReader", "bufWriter", "mask"]
      ∧ "readableStream" ∉ connectionInterfaceFields
      ∧ "writableStream" ∉ connectionInterfaceFields
      ∧ conformsTo returnedConnectionFields connectionInterfaceFields = false := by
  decide

/-- Witness for C7 amended at the identity entropy stream, call 0. -/
theorem C7_amended_mask_is_four_bytes_witness :
    (createMaskCall (fun i => i) 0).length = 4
      ∧ ∀ b ∈ createMaskCall (fun i => i) 0, b < 256 :=
  C7_amended_mask_is_four_bytes (fun i => i) 0

/-- C1: whenever the handshake collaborator throws (on a run whose
scheme dispatch succeeded, so the handshake is reached), the raw socket
is closed and the close is the last action before the error propagates;
the outcome is the thrown error, and no `Connection` value is ever
returned. -/
theorem C1_handshake_failure_closes_socket_no_connection
    (u : ParsedURL) (t : HeaderTimeline) (m : String) (entropy : Nat → Nat)
    (hdial : ∃ x, dialTarget u = Except.ok x) :
    (createConnection u t (Except.error m) entropy).outcome
        = Except.error (JSError.handshakeError m)
      ∧ (createConnection u t (Except.error m) entropy).socketClosed = true
      ∧ (createConnection u t (Except.error m) entropy).trace.getLast?
        = some Event.closeCall
      ∧ ∀ c, (createConnection u t (Except.error m) entropy).outcome
        ≠ Except.ok c := by
  obtain ⟨⟨tr, host, port⟩, h⟩ := hdial
  simp [createConnection, h, closeConn, List.getLast?]

/-- Witness for C1 at `wss://example.test` with a rejected handshake. -/
theorem C1_handshake_failure_closes_socket_no_connection_witness :
    (∃ x, dialTarget ⟨"wss:", "example.test", none⟩ = Except.ok x)
      ∧ ((createConnection ⟨"wss:", "example.test", none⟩ ⟨[], [], []⟩
            (Except.error "wrong status") (fun _ => 0)).outcome
          = Except.error (JSError.handshakeError "wrong status")
        ∧ (createConnection ⟨"wss:", "example.test", none⟩ ⟨[], [], []⟩
            (Except.error "wrong status") (fun _ => 0)).socketClosed = true
        ∧ (createConnection ⟨"wss:", "example.test", none⟩ ⟨[], [], []⟩
            (Except.error "wrong status") (fun _ => 0)).trace.getLast?
          = some Event.closeCall
        ∧ ∀ c, (createConnection ⟨"wss:", "example.test", none⟩ ⟨[], [], []⟩
            (Except.error "wrong status") (fun _ => 0)).outcome
          ≠ Except.ok c) :=
  ⟨⟨_, rfl⟩, C1_handshake_failure_closes_socket_no_connection _ _ _ _ ⟨_, rfl⟩⟩

/-- C2: `http:`/`ws:` URLs dial plain TCP and `https:`/`wss:` URLs dial
TLS; with no explicit port the dialed port is 80 for the plaintext
family and 443 for the encrypted family, and an explicit port is used
verbatim. The dial is the run's first action. -/
theorem C2_transport_and_port_selection
    (u : ParsedURL) (t : HeaderTimeline) (hs : Except String Unit)
    (entropy : Nat → Nat) (p : Nat) :
    ((u.protocol = "http:" ∨ u.protocol = "ws:") → u.port = none →
      (createConnection u t hs entropy).trace.head?
        = some (Event.dial Transport.plain u.hostname 80))
    ∧ ((u.protocol = "http:" ∨ u.protocol = "ws:") → u.port = some p →
      (createConnection u t hs entropy).trace.head?
        = some (Event.dial Transport.plain u.hostname p))
    ∧ ((u.protocol = "https:" ∨ u.protocol = "wss:") → u.port = none →
      (createConnection u t hs entropy).trace.head?
        = some (Event.dial Transport.tls u.hostname 443))
    ∧ ((u.protocol = "https:" ∨ u.protocol = "wss:") → u.port = some p →
      (createConnection u t hs entropy).trace.head?
        = some (Event.dial Transport.tls u.hostname p)) := by
  refine ⟨?_, ?_, ?_, ?_⟩ <;>
    rintro (hp | hp) hport <;>
    rcases hs with m | x <;>
    simp [createConnection, dialTarget, hp, hport]

/-- Witness for C2: `wss://example.test` with no port dials TLS port
443. -/
theorem C2_transport_and_port_selection_witness :
    (createConnection ⟨"wss:", "example.test", none⟩ ⟨[], [], []⟩
        (Except.ok ()) (fun _ => 0)).trace.head?
      = some (Event.dial Transport.tls "example.test" 443) :=
  (C2_transport_and_port_selection ⟨"wss:", "example.test", none⟩
    ⟨[], [], []⟩ (Except.ok ()) (fun _ => 0) 0).2.2.1 (Or.inr rfl) rfl

/-- C3: a URL whose scheme is none of `http:`, `ws:`, `https:`, `wss:`
makes `createConnection` throw the unknown-protocol error with an empty
action trace: no socket is opened and no I/O is attempted. -/
theorem C3_unsupported_scheme_fails_before_io
    (u : ParsedURL) (t : HeaderTimeline) (hs : Except String Unit)
    (entropy : Nat → Nat)
    (h : u.protocol ≠ "http:" ∧ u.protocol ≠ "ws:"
      ∧ u.protocol ≠ "https:" ∧ u.protocol ≠ "wss:") :
    (createConnection u t hs entropy).outcome
        = Except.error (JSError.unsupportedProtocol u.protocol)
      ∧ (createConnection u t hs entropy).trace = []
      ∧ (createConnection u t hs entropy).socketOpened = false := by
  obtain ⟨h1, h2, h3, h4⟩ := h
  simp [createConnection, dialTarget, h1, h2, h3, h4]

/-- Witness for C3 at `ftp://host`. -/
theorem C3_unsupported_scheme_fails_before_io_witness :
    (("ftp:" : String) ≠ "http:" ∧ ("ftp:" : String) ≠ "ws:"
      ∧ ("ftp:" : String) ≠ "https:" ∧ ("ftp:" : String) ≠ "wss:")
      ∧ ((createConnection ⟨"ftp:", "host", none⟩ ⟨[], [], []⟩
            (Except.ok ()) (fun _ => 0)).outcome
          = Except.error (JSError.unsupportedProtocol "ftp:")
        ∧ (createConnection ⟨"ftp:", "host", none⟩ ⟨[], [], []⟩
            (Except.ok ()) (fun _ => 0)).trace = []
        ∧ (createConnection ⟨"ftp:", "host", none⟩ ⟨[], [], []⟩
            (Except.ok ()) (fun _ => 0)).socketOpened = false) :=
  ⟨by decide, C3_unsupported_scheme_fails_before_io _ _ _ _ (by decide)⟩

/-- C8 counterexample: two runs of `createConnection` whose caller
records hold the same contents at call time (empty) but differ by one
mutation made after the call — setting `A` to `b` while the dial await
was still pending — send different handshake headers, because the copy
loop runs only after the dial resolves. So a mutation made after the
call can affect the headers sent. -/
theorem C8_counterexample_mutation_while_dialing_changes_headers :
    handshakeHeadersOf (createConnection ⟨"ws:", "example.test", none⟩
        ⟨[], [("A", "b")], []⟩ (Except.ok ()) (fun _ => 0))
      ≠ handshakeHeadersOf (createConnection ⟨"ws:", "example.test", none⟩
        ⟨[], [], []⟩ (Except.ok ()) (fun _ => 0)) := by
  decide

/-- C8 amended: the caller's record is copied into a fresh `Headers`
object after the dial completes and before the handshake is invoked;
the handshake request headers are exactly that copy, so they depend
only on the record's contents at the copy point — mutations made after
the copy, in particular while the handshake is in flight, have no
effect. (A mutation made between the call and the completion of the
dial, however, is seen by the copy.) -/
theorem C8_amended_headers_fixed_at_copy_time
    (u : ParsedURL) (t₁ t₂ : HeaderTimeline) (hs : Except String Unit)
    (en₁ en₂ : Nat → Nat) (h : t₁.afterDial = t₂.afterDial) :
    handshakeHeadersOf (createConnection u t₁ hs en₁)
        = handshakeHeadersOf (createConnection u t₂ hs en₂)
      ∧ ∀ hdrs, handshakeHeadersOf (createConnection u t₁ hs en₁) = some hdrs
        → hdrs = buildHeadersObject t₁.afterDial := by
  rcases hd : dialTarget u with e | ⟨tr, host, port⟩ <;>
    rcases hs with m | x <;>
    simp [createConnection, hd, handshakeHeadersOf, h]

/-- Witness for C8 amended: with equal contents at copy time, runs
whose records differ at call time and during the handshake send the
same headers, namely the copied mapping. -/
theorem C8_amended_headers_fixed_at_copy_time_witness :
    ((HeaderTimeline.mk [("A", "b")] [("c", "d")] []).afterDial
        = (HeaderTimeline.mk [] [("c", "d")] [("x", "y")]).afterDial)
      ∧ (handshakeHeadersOf (createConnection ⟨"ws:", "example.test", none⟩
            (HeaderTimeline.mk [("A", "b")] [("c", "d")] [])
            (Except.ok ()) (fun _ => 0))
          = handshakeHeadersOf (createConnection ⟨"ws:", "example.test", none⟩
            (HeaderTimeline.mk [] [("c", "d")] [("x", "y")])
            (Except.ok ()) (fun _ => 1))
        ∧ ∀ hdrs, handshakeHeadersOf (createConnection ⟨"ws:", "example.test", none⟩
            (HeaderTimeline.mk [("A", "b")] [("c", "d")] [])
            (Except.ok ()) (fun _ => 0)) = some hdrs
          → hdrs = buildHeadersObject
              (HeaderTimeline.mk [("A", "b")] [("c", "d")] []).afterDial) :=
  ⟨rfl, C8_amended_headers_fixed_at_copy_time _ _ _ _ _ _ rfl⟩

/-- C9 counterexample: on a run that reaches the handshake and whose
handshake throws, no masking key is generated — `createMask()` sits in
the success-path return literal (line 92 of `mod.ts`), which a
handshake failure never reaches. -/
theorem C9_counterexample_failed_handshake_generates_no_mask :
    Event.maskGen ∉ (createConnection ⟨"ws:", "example.test", none⟩
        ⟨[], [], []⟩ (Except.error "rejected") (fun _ => 0)).trace := by
  decide

/-- C9 amended: the masking key is generated only after the handshake
succeeds, as part of assembling the returned `Connection` (to which it
is attached); on a failed handshake, or on a run that never dials, no
key is generated. -/
theorem C9_amended_mask_generated_only_on_success
    (u : ParsedURL) (t : HeaderTimeline) (hs : Except String Unit)
    (entropy : Nat → Nat) :
    (Event.maskGen ∈ (createConnection u t hs entropy).trace
        ↔ (∃ x, dialTarget u = Except.ok x) ∧ hs = Except.ok ())
      ∧ ∀ c, (createConnection u t hs entropy).outcome = Except.ok c
        → c.mask = createMask entropy := by
  rcases hd : dialTarget u with e | ⟨tr, host, port⟩ <;>
    rcases hs with m | x <;>
    simp [createConnection, hd]

/-- Witness for C9 amended: a successful `ws://example.test` run does
generate the mask and attaches it to the returned `Connection`. -/
theorem C9_amended_mask_generated_only_on_success_witness :
    Event.maskGen ∈ (createConnection ⟨"ws:", "example.test", none⟩
        ⟨[], [], []⟩ (Except.ok ()) (fun _ => 0)).trace :=
  (C9_amended_mask_generated_only_on_success ⟨"ws:", "example.test", none⟩
      ⟨[], [], []⟩ (Except.ok ()) (fun _ => 0)).1.mpr ⟨⟨_, rfl⟩, rfl⟩

end CustomSocket
